import Mathlib

/-!
Verification of the Godot-AI-Bridge MCP server core
(`addons/godot_ai_bridge/mcp_server/`): the HTTP connection manager
(`client.py`), the runtime liveness cache and crash diagnostics
(`runtime_tools.py`), and the startup-error classifier and launch gate
(`editor_tools.py`).

Python strings are embedded as `List Char`; Python `float` timeout values as
`ℚ`; network effects as explicit oracles (one outcome per attempt) with the
issued requests returned as an explicit trace.
-/

namespace GodotBridge

/-- Python strings, embedded as lists of characters. -/
abbrev Str := List Char

/-- Whitespace for Python `str.strip()` / regex `\s` (ASCII and the common
control whitespace characters; exotic Unicode spaces do not occur in the
inputs handled here). -/
def pyIsSpace (c : Char) : Bool :=
  c = ' ' || c = '\t' || c = '\n' || c = '\r' ||
  c = Char.ofNat 11 || c = Char.ofNat 12 ||
  c = Char.ofNat 28 || c = Char.ofNat 29 || c = Char.ofNat 30 ||
  c = Char.ofNat 31 || c = Char.ofNat 133

/-- Python `str.strip()`: remove leading and trailing whitespace. -/
def pyStrip (s : Str) : Str :=
  ((s.dropWhile pyIsSpace).reverse.dropWhile pyIsSpace).reverse

/-- ASCII lower-casing of one character, as Python `str.lower()` does on the
ASCII inputs used here. -/
def pyLowerChar (c : Char) : Char :=
  if 'A' ≤ c ∧ c ≤ 'Z' then Char.ofNat (c.toNat + 32) else c

/-- Python `str.lower()`. -/
def pyLower (s : Str) : Str := s.map pyLowerChar

/-- Python `needle in haystack` substring test. -/
def isSubstr (needle haystack : Str) : Bool :=
  match haystack with
  | [] => needle.isEmpty
  | _ :: rest => needle.isPrefixOf haystack || isSubstr needle rest

/-- Python `s.split("\n")`: `"" ↦ [""]`, separators at the ends produce empty
pieces. -/
def splitNl : Str → List Str
  | [] => [[]]
  | c :: rest =>
    if c = '\n' then [] :: splitNl rest
    else
      match splitNl rest with
      | [] => [[c]]
      | l :: ls => (c :: l) :: ls

/-- Python `"\n".join(lines)`. -/
def joinNl : List Str → Str
  | [] => []
  | [l] => l
  | l :: ls => l ++ '\n' :: joinNl ls

/-- ASCII decimal digit (regex `\d` on the ASCII inputs used here). -/
def isDigit (c : Char) : Bool := '0' ≤ c && c ≤ '9'

/-- Python `int()` on a nonempty decimal-digit string. -/
def natOfDigits (ds : Str) : Nat :=
  ds.foldl (fun acc c => acc * 10 + (c.toNat - '0'.toNat)) 0

end GodotBridge

namespace GodotBridge

/-! ### `utils.py` -/

/-- `ERROR_MARKERS` from `utils.py`. -/
def ERROR_MARKERS : List Str :=
  ["error".toList, "exception".toList, "traceback".toList,
   "script error".toList, "node not found".toList]

/-- `is_error_line` from `utils.py`: the trimmed line is nonempty and its
lower-cased form contains one of the error markers. -/
def is_error_line (line : Str) : Bool :=
  let stripped := pyStrip line
  if stripped.isEmpty then false
  else ERROR_MARKERS.any (fun m => isSubstr m (pyLower stripped))

/-! ### `editor_tools.py`: startup-error classifier -/

/-- `_FATAL_PATTERNS` from `editor_tools.py`. -/
def FATAL_PATTERNS : List Str :=
  ["node not found".toList, "cannot call method".toList,
   "invalid access".toList, "invalid call".toList,
   "script error".toList, "parse error".toList]

/-- `_is_fatal_error`: the lower-cased trimmed line is nonempty and contains
one of the fatal patterns. -/
def is_fatal_error (line : Str) : Bool :=
  let lowered := pyLower (pyStrip line)
  if lowered.isEmpty then false
  else FATAL_PATTERNS.any (fun p => isSubstr p lowered)

/-- Characters excluded by the regex character class `[^\s:,)]` in
`_FILE_LINE_RE`. -/
def fileLineExcluded (c : Char) : Bool :=
  pyIsSpace c || c = ':' || c = ',' || c = ')'

/-- Attempt to match `_FILE_LINE_RE` = `(res://[^\s:,)]+):(\d+)` at the head
of `s`.  The character class excludes `:`, so the greedy `+` run ends exactly
at the first excluded character and the regex backtracking is deterministic:
the run must be nonempty, followed by `:` and at least one digit. -/
def fileLineMatchAt (s : Str) : Option (Str × Nat) :=
  if ("res://".toList).isPrefixOf s then
    let rest := s.drop 6
    let run := rest.takeWhile (fun c => !fileLineExcluded c)
    let after := rest.dropWhile (fun c => !fileLineExcluded c)
    if run.isEmpty then none
    else
      match after with
      | ':' :: tail =>
        let digits := tail.takeWhile isDigit
        if digits.isEmpty then none
        else some ("res://".toList ++ run, natOfDigits digits)
      | _ => none
  else none

/-- `re.search` with `_FILE_LINE_RE`: the leftmost start position at which the
pattern matches. -/
def fileLineSearch : Str → Option (Str × Nat)
  | [] => none
  | c :: rest =>
    match fileLineMatchAt (c :: rest) with
    | some r => some r
    | none => fileLineSearch rest

/-- Case-insensitive literal prefix match (regex with `re.IGNORECASE`);
returns the remainder after the matched prefix. -/
def matchPrefixCI (pat : Str) (s : Str) : Option Str :=
  match pat, s with
  | [], rest => some rest
  | _ :: _, [] => none
  | p :: ps, c :: cs =>
    if pyLowerChar p = pyLowerChar c then matchPrefixCI ps cs else none

/-- The `\s*(.+)` tail of `_SCRIPT_ERROR_RE` applied to the text after the
`:`.  Greedy `\s*` takes the maximal whitespace run; `(.+)` (where `.` is any
character except `'\n'`) then needs at least one character, so when the rest
is empty the `\s*` backtracks far enough to leave one non-newline whitespace
character for the group. -/
def wsDotPlus (u : Str) : Option Str :=
  let w := u.takeWhile pyIsSpace
  let r := u.dropWhile pyIsSpace
  if !r.isEmpty then some (r.takeWhile (fun c => c ≠ '\n'))
  else
    match w.reverse.dropWhile (fun c => c = '\n') with
    | [] => none
    | c :: _ => some [c]

/-- Attempt to match `_SCRIPT_ERROR_RE` =
`(?:SCRIPT ERROR|Parse Error|ERROR)\s*:\s*(.+)` (IGNORECASE) at the head of
`s`, returning group 1.  The three alternatives start with distinct letters
(`S`, `P`, `E`), so at most one can apply at a given position; after the
alternative, greedy `\s*` then the literal `:` is again deterministic. -/
def scriptErrorMatchAt (s : Str) : Option Str :=
  let afterAlt :=
    match matchPrefixCI "SCRIPT ERROR".toList s with
    | some r => some r
    | none =>
      match matchPrefixCI "Parse Error".toList s with
      | some r => some r
      | none => matchPrefixCI "ERROR".toList s
  match afterAlt with
  | none => none
  | some r =>
    match r.dropWhile pyIsSpace with
    | ':' :: tail => wsDotPlus tail
    | _ => none

/-- `re.search` with `_SCRIPT_ERROR_RE`: leftmost matching start position. -/
def scriptErrorSearch : Str → Option Str
  | [] => none
  | c :: rest =>
    match scriptErrorMatchAt (c :: rest) with
    | some r => some r
    | none => scriptErrorSearch rest

/-- The structured dict returned by `_parse_error_line`:
`{"message": str, "file": str|None, "line": int|None}`. -/
structure ErrorRecord where
  message : Str
  file : Option Str
  line : Option Nat
  deriving Repr, DecidableEq

/-- `_parse_error_line` from `editor_tools.py`. -/
def parse_error_line (line : Str) : ErrorRecord :=
  let stripped := pyStrip line
  let fileLine := fileLineSearch stripped
  let message :=
    match scriptErrorSearch stripped with
    | some g => pyStrip g
    | none => stripped
  { message := message
    file := fileLine.map Prod.fst
    line := fileLine.map Prod.snd }

/-- One iteration of the `_collect_startup_errors` loop: the accumulator
holds the `seen` keys and the collected records. -/
def collectStep (acc : List Str × List ErrorRecord) (line : Str) :
    List Str × List ErrorRecord :=
  if is_fatal_error line then
    let key := pyStrip line
    if key ∈ acc.1 then acc
    else (key :: acc.1, acc.2 ++ [parse_error_line line])
  else acc

/-- `_collect_startup_errors`: scan the output line by line, keep fatal lines,
deduplicate by trimmed line text, parse each into an `ErrorRecord`. -/
def collect_startup_errors (output : Str) : List ErrorRecord :=
  ((splitNl output).foldl collectStep ([], [])).2

/-- `_truncate_log_tail`: keep at most the last `maxLines` lines of the
trimmed output. -/
def truncate_log_tail (output : Str) (maxLines : Nat := 60) : Str :=
  let lines := splitNl (pyStrip output)
  if lines.length > maxLines then
    joinNl (lines.drop (lines.length - maxLines))
  else pyStrip output

/-! ### `client.py`: the connection manager (`GodotClient`)

HTTP effects are modelled by an oracle giving the outcome of each successive
attempt; the requests actually issued are returned as an explicit trace.
Timeout floats are embedded as `ℚ`. -/

/-- `MAX_TIMEOUT` from `client.py`. -/
def MAX_TIMEOUT : ℚ := 120

/-- HTTP method of a request. -/
inductive Method | get | post
  deriving Repr, DecidableEq

/-- One HTTP request as issued by `httpx` on behalf of `GodotClient`:
method, path, payload (the `params` of a GET or the `json` body of a POST,
kept abstract in `α`), and the per-request timeout passed to `httpx`. -/
structure Request (α : Type) where
  method : Method
  path : Str
  payload : α
  timeout : ℚ
  deriving Repr, DecidableEq

/-- Outcome of one attempted HTTP request, as classified by the `except`
clauses of `GodotClient.get`/`post`:
`success` (2xx with a JSON body), `httpError` (non-2xx, so
`raise_for_status` raises `httpx.HTTPStatusError`), `connFault`
(`httpx.ConnectError` / `ReadError` / `WriteError`), `timeoutFault`
(`httpx.TimeoutException`). -/
inductive AttemptOutcome (β : Type) where
  | success (json : β)
  | httpError
  | connFault
  | timeoutFault
  deriving Repr, DecidableEq

/-- What a `GodotClient.get`/`post` call returns or raises:
`ok` — the JSON body; `httpFailure` — `httpx.HTTPStatusError` propagates
uncaught; `connFailure` — the second connection-level fault propagates
uncaught; `timeoutFailure t path` — the `httpx.TimeoutException` re-raised
with the message `f"Godot did not respond within {t}s on {method} {path} — the
editor/game may have crashed or is unresponsive"` (modelled by the two values
interpolated into it); `rawTimeout` — a `httpx.TimeoutException` raised inside
the connection-fault `except` handler, which the sibling
`except httpx.TimeoutException` clause of the same `try` does *not* catch, so
it propagates with httpx's own message. -/
inductive CallResult (β : Type) where
  | ok (json : β)
  | httpFailure
  | connFailure
  | timeoutFailure (timeout : ℚ) (path : Str)
  | rawTimeout
  deriving Repr, DecidableEq

/-- The mutable state of a `GodotClient`: the constructor-clamped default
timeout, the current persistent channel (`self._client`; `none` when unset or
closed), and a counter supplying fresh channel identities. -/
structure ClientState where
  timeout : ℚ
  channel : Option Nat
  nextId : Nat
  deriving Repr, DecidableEq

/-- `GodotClient.__init__`: the default timeout is clamped to `MAX_TIMEOUT`
at construction; no channel exists yet. -/
def ClientState.init (timeout : ℚ := 30) : ClientState :=
  { timeout := min timeout MAX_TIMEOUT, channel := none, nextId := 0 }

/-- `GodotClient._effective_timeout`: the override, clamped to `MAX_TIMEOUT`,
or the (already clamped) constructor default. -/
def ClientState.effective_timeout (st : ClientState) (override : Option ℚ) : ℚ :=
  match override with
  | some o => min o MAX_TIMEOUT
  | none => st.timeout

/-- `GodotClient._get_client`: reuse the current channel, or lazily create a
fresh one. -/
def ClientState.get_client (st : ClientState) : Nat × ClientState :=
  match st.channel with
  | some c => (c, st)
  | none => (st.nextId, { st with channel := some st.nextId, nextId := st.nextId + 1 })

/-- `GodotClient._reset_client`: close and discard the current channel. -/
def ClientState.reset_client (st : ClientState) : ClientState :=
  { st with channel := none }

/-- The shared body of `GodotClient.get` and `GodotClient.post` (the two
methods are line-for-line identical up to the HTTP method and payload kind).
`oracle n` is the outcome of the `n`-th attempted request of this call.
Returns the call result, the trace of requests issued (in order, each tagged
with the channel that carried it), and the client state afterwards. -/
def ClientState.request (st : ClientState) {β : Type} (method : Method)
    (path : Str) {α : Type} (payload : α) (override : Option ℚ)
    (oracle : Nat → AttemptOutcome β) :
    CallResult β × List (Nat × Request α) × ClientState :=
  let t := st.effective_timeout override
  let req : Request α := ⟨method, path, payload, t⟩
  let ch₁ := st.get_client.1
  let st₁ := st.get_client.2
  match oracle 0 with
  | .success j => (.ok j, [(ch₁, req)], st₁)
  | .httpError => (.httpFailure, [(ch₁, req)], st₁)
  | .timeoutFault =>
    -- `except httpx.TimeoutException`: discard the channel, re-raise with a
    -- message naming the effective timeout and the path.
    (.timeoutFailure t path, [(ch₁, req)], st₁.reset_client)
  | .connFault =>
    -- `except (httpx.ConnectError, httpx.ReadError, httpx.WriteError)`:
    -- discard the channel and reissue the identical request once on a fresh
    -- channel.  Exceptions raised here are *inside* this handler, so the
    -- sibling `except httpx.TimeoutException` clause does not apply to them.
    let ch₂ := st₁.reset_client.get_client.1
    let st₂ := st₁.reset_client.get_client.2
    match oracle 1 with
    | .success j => (.ok j, [(ch₁, req), (ch₂, req)], st₂)
    | .httpError => (.httpFailure, [(ch₁, req), (ch₂, req)], st₂)
    | .connFault => (.connFailure, [(ch₁, req), (ch₂, req)], st₂)
    | .timeoutFault => (.rawTimeout, [(ch₁, req), (ch₂, req)], st₂)

/-- `GodotClient.get`. -/
def ClientState.get (st : ClientState) {β α : Type} (path : Str) (params : α)
    (override : Option ℚ) (oracle : Nat → AttemptOutcome β) :
    CallResult β × List (Nat × Request α) × ClientState :=
  st.request .get path params override oracle

/-- `GodotClient.post`. -/
def ClientState.post (st : ClientState) {β α : Type} (path : Str) (json : α)
    (override : Option ℚ) (oracle : Nat → AttemptOutcome β) :
    CallResult β × List (Nat × Request α) × ClientState :=
  st.request .post path json override oracle

/-! ### `runtime_tools.py`: liveness cache and crash diagnostics

`time.monotonic()` readings are embedded as `ℚ`; the `runtime.is_available()`
probe and the editor-side `GET /debugger/output` are oracles. -/

/-- `GAME_NOT_RUNNING_MSG` from `runtime_tools.py`. -/
def GAME_NOT_RUNNING_MSG : Str :=
  "Game is not running. Use godot_run_game() to start it first.".toList

/-- `_CACHE_TTL` from `runtime_tools.py`. -/
def CACHE_TTL : ℚ := 2

/-- `_runtime_cache`: the module-level liveness record,
`{"last_ok": float}`. -/
structure RuntimeCache where
  last_ok : ℚ
  deriving Repr, DecidableEq

/-- The fixed `repair_steps` text appended by `_get_crash_diagnostics`. -/
def repairSteps : Str :=
  ("\n\nYou MUST attempt to fix this. Follow these steps:\n" ++
   "  1. Call godot_get_debugger_output() for full error context.\n" ++
   "  2. Read the broken script(s) with godot_read_script().\n" ++
   "  3. Fix the code with godot_write_script().\n" ++
   "  4. Call godot_stop_game(), then godot_save_scene().\n" ++
   "  5. Relaunch with godot_run_game(strict=true).\n" ++
   "Do NOT stop here — diagnose and fix the error.").toList

/-- Order-preserving deduplication, as the `seen`/`unique` loop of
`_get_crash_diagnostics` does it. -/
def dedupPreserving (lines : List Str) : List Str :=
  (lines.foldl
    (fun (acc : List Str × List Str) line =>
      if line ∈ acc.1 then acc else (acc.1 ++ [line], acc.2 ++ [line]))
    ([], [])).2

/-- Python `lst[-n:]`: the last `n` elements (all of them when `n ≥ length`). -/
def lastN {γ : Type} (n : Nat) (l : List γ) : List γ :=
  l.drop (l.length - n)

/-- `_get_crash_diagnostics` from `runtime_tools.py`.  `editorLog` is the
outcome of `GET /debugger/output` on the editor endpoint: `none` when the
fetch raised (editor also unreachable), otherwise the `output` text (a
missing key defaulting to `""`). -/
def get_crash_diagnostics (editorLog : Option Str) : Str :=
  let error_lines :=
    match editorLog with
    | none => []
    | some output =>
      (splitNl output).filterMap fun line =>
        if !(pyStrip line).isEmpty && is_error_line line
        then some (pyStrip line) else none
  if error_lines.isEmpty then
    "Game crashed or was stopped — no error details found in the log.".toList
      ++ repairSteps
  else
    let unique := lastN 10 (dedupPreserving error_lines)
    "Game crashed or was stopped unexpectedly. Errors found in log:\n\n".toList
      ++ joinNl (unique.map (fun line => "  ".toList ++ line))
      ++ repairSteps

/-- What one `_check_runtime()` call did and returned: the error message
(`none` when the runtime is considered OK), the updated `_runtime_cache`, and
whether a real `runtime.is_available()` probe was issued. -/
structure CheckOutcome where
  errMsg : Option Str
  cache : RuntimeCache
  probed : Bool
  deriving Repr, DecidableEq

/-- `_check_runtime` from `runtime_tools.py`.  `now` is the
`time.monotonic()` reading, `probeAvailable` the result the
`runtime.is_available()` probe would give, and `editorLog` the editor-side
debugger output used by crash diagnostics on an up→down transition. -/
def check_runtime (cache : RuntimeCache) (now : ℚ) (probeAvailable : Bool)
    (editorLog : Option Str) : CheckOutcome :=
  if now - cache.last_ok < CACHE_TTL then
    { errMsg := none, cache := cache, probed := false }
  else if !probeAvailable then
    let was_previously_running := cache.last_ok > 0
    { errMsg := some
        (if was_previously_running then get_crash_diagnostics editorLog
         else GAME_NOT_RUNNING_MSG)
      cache := ⟨0⟩
      probed := true }
  else
    { errMsg := none, cache := ⟨now⟩, probed := true }

/-! ### `editor_tools.py`: the launch gate (`godot_run_game`) -/

/-- Python `str(n)` for a natural number. -/
def natToStr (n : Nat) : Str := Nat.toDigits 10 n

/-- The environment a `godot_run_game` call runs against.
`availAt i` is the result of the `runtime.is_available()` probe on poll
iteration `i` (of the 60 iterations at 0.25 s each, after the 1.5 s settle
delay; the initial `POST /game/run` is assumed to return).
`infoScene` is `current_scene` from `GET /info` (`none` when the key is
absent).  `consoleOut` is the `output` of `GET /console` (`none` when the
fetch raised — it is best-effort).  `debuggerOut` is the `output` of the
editor-side `GET /debugger/output` (`none` when that fetch raised). -/
structure RunEnv where
  availAt : Nat → Bool
  infoScene : Option Str
  consoleOut : Option Str
  debuggerOut : Option Str

/-- The dict returned by `godot_run_game`, with its optional keys. -/
structure RunGameResult where
  ok : Bool
  running : Bool
  error_type : Option Str := none
  startup_errors : Option (List ErrorRecord) := none
  log_tail : Option Str := none
  description : Str
  game_info_scene : Option (Option Str) := none
  runtime_errors : Option (List Str) := none
  debugger_errors : Option (List Str) := none
  deriving Repr, DecidableEq

/-- The error lines surfaced in non-strict mode:
`[line.strip() for line in output.split("\n") if _is_error_line(line)]`. -/
def advisoryErrorLines (output : Str) : List Str :=
  (splitNl output).filterMap fun line =>
    if is_error_line line then some (pyStrip line) else none

/-- `combined_output = (console_output + "\n" + debugger_output).strip()` as
computed by `godot_run_game` once the runtime is reachable (a failed
best-effort fetch leaves the corresponding output `""`). -/
def combinedOutput (env : RunEnv) : Str :=
  pyStrip (env.consoleOut.getD [] ++ '\n' :: env.debuggerOut.getD [])

/-- The `startup_errors` synthesized by the strict unreachable branch of
`godot_run_game`: the classified fatal records, or — when none — one parsed
record per advisory error line. -/
def synthesized_startup_errors (log : Str) : List ErrorRecord :=
  let collected := collect_startup_errors log
  if collected.isEmpty then (advisoryErrorLines log).map parse_error_line
  else collected

/-- `godot_run_game` from `editor_tools.py` (strict and non-strict paths). -/
def godot_run_game (scene : Str) (strict : Bool) (env : RunEnv) : RunGameResult :=
  match (List.range 60).find? env.availAt with
  | some _ =>
    -- Runtime bridge became reachable within the poll budget.
    let scene_name := env.infoScene.getD
      (if scene.isEmpty then "main scene".toList else scene)
    let console_output := env.consoleOut.getD []
    let combined_output := combinedOutput env
    let startup_errors := collect_startup_errors combined_output
    if strict && !startup_errors.isEmpty then
      { ok := false
        running := true
        error_type := some "startup_runtime_error".toList
        startup_errors := some startup_errors
        log_tail := some (truncate_log_tail combined_output)
        description :=
          ("❌ Game started but has ".toList ++ natToStr startup_errors.length ++
           " fatal startup error(s) — read the errors below, fix the code, stop, save, and relaunch".toList) }
    else
      let error_lines := advisoryErrorLines console_output
      { ok := true
        running := true
        description := ("▶️ Game started — '".toList ++ scene_name ++ "'".toList)
        game_info_scene := some env.infoScene
        runtime_errors :=
          if !console_output.isEmpty && !error_lines.isEmpty
          then some error_lines else none }
  | none =>
    -- Poll budget exhausted: the runtime bridge never connected.
    let debugger_output := env.debuggerOut.getD []
    if strict then
      let startup_errors := synthesized_startup_errors debugger_output
      { ok := false
        running := false
        error_type := some "startup_runtime_error".toList
        startup_errors := some startup_errors
        log_tail := some
          (if !debugger_output.isEmpty then truncate_log_tail debugger_output else [])
        description :=
          ("❌ Game failed to start — ".toList ++ natToStr startup_errors.length ++
           " error(s) found. Read the errors, fix the code, save, and relaunch.".toList) }
    else
      let error_lines := advisoryErrorLines debugger_output
      { ok := false
        running := false
        description :=
          "❌ Game failed to start — call godot_get_debugger_output() to see errors, fix, and relaunch".toList
        debugger_errors :=
          if !debugger_output.isEmpty && !error_lines.isEmpty
          then some error_lines else none }

/-! ### `runtime_tools.py`: the gated tools

Every registered runtime tool first runs `err = await _check_runtime()` and
returns immediately on a non-`None` result, issuing its runtime command only
afterwards.  Each tool below is modelled as a function of the gate result and
of the response the runtime would give; it returns the tool's result together
with the trace of command requests issued to the runtime endpoint.  (The
`_push_vision` / `_fetch_director_notes` helpers talk to the *editor*
endpoint and are not runtime commands; rendering of responses into display
strings and image blocks is outside the verified core.) -/

/-- A parameter / JSON-body value as built by the tools (Python stringifies
GET query values; the distinction is kept in the payload constructors). -/
inductive JVal where
  | s (v : Str)
  | q (v : ℚ)
  | n (v : Nat)
  | b (v : Bool)
  deriving Repr, DecidableEq

/-- One command request to the runtime endpoint. -/
structure RuntimeReq where
  method : Method
  path : Str
  payload : List (Str × JVal)
  deriving Repr, DecidableEq

/-- What a gated tool call produced: the gate error returned as the entire
result (`return [err]` for list-valued tools, `return {"error": err}` for
dict-valued tools), or the response of the issued runtime command (its
further rendering being out of scope). -/
inductive ToolReturn (β : Type) where
  | listErr (err : Str)
  | dictErr (err : Str)
  | proceeded (resp : β)
  deriving Repr, DecidableEq

/-- `game_snapshot`: gate, then `GET /snapshot` with the faithfully built
params (`root` only when nonempty). -/
def game_snapshot_tool {β : Type} (gateErr : Option Str) (root : Str)
    (depth : Nat) (include_screenshot annotate : Bool) (quality : ℚ)
    (resp : β) : ToolReturn β × List RuntimeReq :=
  match gateErr with
  | some err => (.listErr err, [])
  | none =>
    let params : List (Str × JVal) :=
      [("depth".toList, .n depth),
       ("include_screenshot".toList, .b include_screenshot),
       ("annotate".toList, .b (annotate && include_screenshot)),
       ("quality".toList, .q quality)] ++
      (if root.isEmpty then [] else [("root".toList, .s root)])
    (.proceeded resp, [⟨.get, "/snapshot".toList, params⟩])

/-- `game_screenshot`: gate, then `GET /screenshot`. -/
def game_screenshot_tool {β : Type} (gateErr : Option Str)
    (width height : Nat) (quality : ℚ) (annotate : Bool) (resp : β) :
    ToolReturn β × List RuntimeReq :=
  match gateErr with
  | some err => (.listErr err, [])
  | none =>
    (.proceeded resp,
     [⟨.get, "/screenshot".toList,
       [("width".toList, .n width), ("height".toList, .n height),
        ("quality".toList, .q quality), ("annotate".toList, .b annotate)]⟩])

/-- `game_click`: gate, then `POST /click` (the `double` key only when
requested). -/
def game_click_tool {β : Type} (gateErr : Option Str) (x y : ℚ)
    (button : Str) (double : Bool) (resp : β) :
    ToolReturn β × List RuntimeReq :=
  match gateErr with
  | some err => (.dictErr err, [])
  | none =>
    let body : List (Str × JVal) :=
      [("x".toList, .q x), ("y".toList, .q y), ("button".toList, .s button)]
      ++ (if double then [("double".toList, .b true)] else [])
    (.proceeded resp, [⟨.post, "/click".toList, body⟩])

/-- `game_events`: gate, then `GET /events` (the `peek` param only when
peeking). -/
def game_events_tool {β : Type} (gateErr : Option Str) (peek : Bool)
    (resp : β) : ToolReturn β × List RuntimeReq :=
  match gateErr with
  | some err => (.dictErr err, [])
  | none =>
    (.proceeded resp,
     [⟨.get, "/events".toList,
       if peek then [("peek".toList, .s "true".toList)] else []⟩])

/-- `game_snapshot_diff`: gate, then `GET /snapshot/diff`. -/
def game_snapshot_diff_tool {β : Type} (gateErr : Option Str) (depth : Nat)
    (resp : β) : ToolReturn β × List RuntimeReq :=
  match gateErr with
  | some err => (.dictErr err, [])
  | none =>
    (.proceeded resp,
     [⟨.get, "/snapshot/diff".toList, [("depth".toList, .n depth)]⟩])

/-! ### Concrete instances used to evaluate the definitions -/

/-- The literal diagnostic text of crash diagnostics. -/
def NO_DETAILS : Str := "no error details found".toList

/-- Whether any text field of a `godot_run_game` result mentions `needle`. -/
def resultMentions (needle : Str) (r : RunGameResult) : Bool :=
  isSubstr needle r.description ||
  (match r.error_type with | some s => isSubstr needle s | none => false) ||
  (match r.log_tail with | some s => isSubstr needle s | none => false) ||
  (match r.startup_errors with
   | some l => l.any fun e => isSubstr needle e.message
   | none => false) ||
  (match r.runtime_errors with | some l => l.any (isSubstr needle) | none => false) ||
  (match r.debugger_errors with | some l => l.any (isSubstr needle) | none => false)

/-- Launch environment where the runtime bridge never becomes reachable and
the editor-side debugger fetch raises (editor unreachable too). -/
def envUnreachable : RunEnv :=
  { availAt := fun _ => false
    infoScene := none
    consoleOut := none
    debuggerOut := none }

/-- Launch environment where the runtime is reachable at once and the console
shows one fatal startup error. -/
def envFatal : RunEnv :=
  { availAt := fun _ => true
    infoScene := none
    consoleOut := some "SCRIPT ERROR: missing method at res://a.gd:7".toList
    debuggerOut := none }

/-- Attempt oracle: every attempt raises a connection-level fault. -/
def oracleConnConn : Nat → AttemptOutcome Unit := fun _ => .connFault

/-- Attempt oracle: every attempt times out. -/
def oracleTimeout : Nat → AttemptOutcome Unit := fun _ => .timeoutFault

/-- Attempt oracle: a connection-level fault, then a timeout on the retry. -/
def oracleConnThenTimeout : Nat → AttemptOutcome Unit :=
  fun n => if n = 0 then .connFault else .timeoutFault

end GodotBridge

/-! ## Theorems -/

namespace GodotBridge

/-! ### Helper lemmas -/

theorem splitNl_ne_nil (s : Str) : splitNl s ≠ [] := by
  cases s with
  | nil => simp [splitNl]
  | cons c rest =>
    simp only [splitNl]
    by_cases hc : c = '\n'
    · simp [hc]
    · simp only [if_neg hc]
      cases h : splitNl rest <;> simp

theorem not_newline_mem_splitNl (s : Str) :
    ∀ l ∈ splitNl s, '\n' ∉ l := by
  induction s with
  | nil =>
    intro l hl
    simp [splitNl] at hl
    simp [hl]
  | cons c rest ih =>
    intro l hl
    simp only [splitNl] at hl
    by_cases hc : c = '\n'
    · rw [if_pos hc] at hl
      rcases List.mem_cons.mp hl with h | h
      · simp [h]
      · exact ih l h
    · rw [if_neg hc] at hl
      rcases h : splitNl rest with _ | ⟨l0, ls⟩
      · rw [h] at hl
        simp at hl
        subst hl
        intro hmem
        rcases List.mem_cons.mp hmem with h2 | h2
        · exact hc h2.symm
        · simp at h2
      · rw [h] at hl
        rcases List.mem_cons.mp hl with h1 | h1
        · subst h1
          intro hmem
          rcases List.mem_cons.mp hmem with h2 | h2
          · exact hc h2.symm
          · exact ih l0 (by rw [h]; exact List.mem_cons_self l0 ls) h2
        · exact ih l (by rw [h]; exact List.mem_cons_of_mem l0 h1)

theorem splitNl_append_newline (p t : Str) (hp : '\n' ∉ p) :
    splitNl (p ++ '\n' :: t) = p :: splitNl t := by
  induction p with
  | nil => simp [splitNl]
  | cons c p ih =>
    have hc : ¬(c = '\n') := fun h => hp (List.mem_cons.mpr (Or.inl h.symm))
    have hp' : '\n' ∉ p := fun h => hp (List.mem_cons_of_mem c h)
    simp only [List.cons_append, splitNl, if_neg hc, List.append_eq]
    rw [ih hp']

theorem splitNl_no_newline (p : Str) (hp : '\n' ∉ p) : splitNl p = [p] := by
  induction p with
  | nil => simp [splitNl]
  | cons c p ih =>
    have hc : ¬(c = '\n') := fun h => hp (List.mem_cons.mpr (Or.inl h.symm))
    have hp' : '\n' ∉ p := fun h => hp (List.mem_cons_of_mem c h)
    simp only [splitNl, if_neg hc, ih hp']

theorem splitNl_joinNl (xs : List Str) (hne : xs ≠ [])
    (h : ∀ l ∈ xs, '\n' ∉ l) : splitNl (joinNl xs) = xs := by
  induction xs with
  | nil => exact absurd rfl hne
  | cons x xs ih =>
    cases xs with
    | nil => simpa [joinNl] using splitNl_no_newline x (h x (List.mem_cons_self x []))
    | cons y ys =>
      have hx : '\n' ∉ x := h x (List.mem_cons_self _ _)
      have hrest : ∀ l ∈ y :: ys, '\n' ∉ l :=
        fun l hl => h l (List.mem_cons_of_mem x hl)
      show splitNl (x ++ '\n' :: joinNl (y :: ys)) = x :: y :: ys
      rw [splitNl_append_newline x _ hx, ih (by simp) hrest]

theorem truncate_log_tail_lines_le (s : Str) :
    (splitNl (truncate_log_tail s 60)).length ≤ 60 := by
  unfold truncate_log_tail
  by_cases hlen : (splitNl (pyStrip s)).length > 60
  · rw [if_pos hlen]
    have hdropne : (splitNl (pyStrip s)).drop ((splitNl (pyStrip s)).length - 60) ≠ [] := by
      intro hcon
      have hlc := congrArg List.length hcon
      simp only [List.length_drop, List.length_nil] at hlc
      omega
    have hdropnl : ∀ l ∈ (splitNl (pyStrip s)).drop ((splitNl (pyStrip s)).length - 60),
        '\n' ∉ l := by
      intro l hl
      exact not_newline_mem_splitNl (pyStrip s) l (List.drop_subset _ _ hl)
    rw [splitNl_joinNl _ hdropne hdropnl]
    simp only [List.length_drop]
    omega
  · rw [if_neg hlen]
    omega

theorem ClientState.request_map_timeout {β α : Type} (st : ClientState)
    (m : Method) (path : Str) (payload : α) (o : Option ℚ)
    (oracle : Nat → AttemptOutcome β) :
    ((st.request m path payload o oracle).2.1.map fun r => r.2.timeout)
      = List.replicate (st.request m path payload o oracle).2.1.length
          (st.effective_timeout o) := by
  unfold ClientState.request
  cases h0 : oracle 0 <;> simp
  cases h1 : oracle 1 <;> simp

theorem mem_collectStep {rec : ErrorRecord} {acc : List Str × List ErrorRecord}
    {line : Str} (h : rec ∈ (collectStep acc line).2) :
    rec ∈ acc.2 ∨ rec = parse_error_line line := by
  unfold collectStep at h
  by_cases hf : is_fatal_error line
  · rw [if_pos hf] at h
    by_cases hk : pyStrip line ∈ acc.1
    · simp only [if_pos hk] at h
      exact Or.inl h
    · simp only [if_neg hk] at h
      rcases List.mem_append.mp h with h' | h'
      · exact Or.inl h'
      · simp at h'
        exact Or.inr h'
  · rw [if_neg hf] at h
    exact Or.inl h

theorem mem_foldl_collectStep (lines : List Str) :
    ∀ (acc : List Str × List ErrorRecord) (rec : ErrorRecord),
      rec ∈ (lines.foldl collectStep acc).2 →
      rec ∈ acc.2 ∨ ∃ line, rec = parse_error_line line := by
  induction lines with
  | nil =>
    intro acc rec h
    exact Or.inl h
  | cons l ls ih =>
    intro acc rec h
    rw [List.foldl_cons] at h
    rcases ih (collectStep acc l) rec h with h' | h'
    · rcases mem_collectStep h' with h'' | h''
      · exact Or.inl h''
      · exact Or.inr ⟨l, h''⟩
    · exact Or.inr h'

theorem mem_collect_startup_errors {rec : ErrorRecord} {output : Str}
    (h : rec ∈ collect_startup_errors output) :
    ∃ line, rec = parse_error_line line := by
  unfold collect_startup_errors at h
  rcases mem_foldl_collectStep _ _ _ h with h' | h'
  · simp at h'
  · exact h'

theorem fileLineMatchAt_res_prefix {s f : Str} {n : Nat}
    (h : fileLineMatchAt s = some (f, n)) :
    ("res://".toList).isPrefixOf f = true := by
  simp only [fileLineMatchAt] at h
  split at h
  · split at h
    · exact absurd h (by simp)
    · split at h
      · split at h
        · exact absurd h (by simp)
        · simp only [Option.some.injEq, Prod.mk.injEq] at h
          rw [← h.1]
          exact List.isPrefixOf_iff_prefix.mpr (List.prefix_append _ _)
      · exact absurd h (by simp)
  · exact absurd h (by simp)

theorem fileLineSearch_res_prefix {s f : Str} {n : Nat}
    (h : fileLineSearch s = some (f, n)) :
    ("res://".toList).isPrefixOf f = true := by
  induction s with
  | nil => simp [fileLineSearch] at h
  | cons c rest ih =>
    unfold fileLineSearch at h
    rcases hm : fileLineMatchAt (c :: rest) with _ | r
    · rw [hm] at h
      exact ih h
    · rw [hm] at h
      cases h
      exact fileLineMatchAt_res_prefix hm

theorem parse_error_line_paired (line : Str) :
    ((parse_error_line line).file.isSome ↔ (parse_error_line line).line.isSome) ∧
    (∀ f, (parse_error_line line).file = some f →
      ("res://".toList).isPrefixOf f = true) := by
  rcases h : fileLineSearch (pyStrip line) with _ | ⟨f, n⟩
  · constructor
    · simp [parse_error_line, h]
    · intro f' hf'
      simp [parse_error_line, h] at hf'
  · constructor
    · simp [parse_error_line, h]
    · intro f' hf'
      simp only [parse_error_line, h, Option.map_some'] at hf'
      cases hf'
      exact fileLineSearch_res_prefix h

end GodotBridge

namespace GodotBridge

/-! ### Claim theorems -/

/-- C2: for every timeout `t` requested by a caller of the connection
manager's get or post — including the constructor default when no per-call
override is given — every HTTP request of the call uses the effective timeout
`min t MAX_TIMEOUT` with `MAX_TIMEOUT = 120`, and the ceiling is never
exceeded. -/
theorem C2_effective_timeout_clamped {β α : Type} (st : ClientState)
    (path : Str) (payload : α) (t t₀ : ℚ) (o : Option ℚ)
    (oracle : Nat → AttemptOutcome β) :
    ((st.get path payload (some t) oracle).2.1.map fun r => r.2.timeout)
      = List.replicate (st.get path payload (some t) oracle).2.1.length
          (min t MAX_TIMEOUT) ∧
    ((st.post path payload (some t) oracle).2.1.map fun r => r.2.timeout)
      = List.replicate (st.post path payload (some t) oracle).2.1.length
          (min t MAX_TIMEOUT) ∧
    (((ClientState.init t₀).get path payload none oracle).2.1.map
        fun r => r.2.timeout)
      = List.replicate
          ((ClientState.init t₀).get path payload none oracle).2.1.length
          (min t₀ MAX_TIMEOUT) ∧
    (ClientState.init t₀).effective_timeout o ≤ MAX_TIMEOUT ∧
    st.effective_timeout (some t) = min t MAX_TIMEOUT := by
  refine ⟨?_, ?_, ?_, ?_, rfl⟩
  · exact ClientState.request_map_timeout st .get path payload (some t) oracle
  · exact ClientState.request_map_timeout st .post path payload (some t) oracle
  · have h := ClientState.request_map_timeout (ClientState.init t₀) .get path
      payload (none : Option ℚ) oracle
    simpa [ClientState.effective_timeout, ClientState.init] using h
  · cases o with
    | none => exact min_le_right _ _
    | some x => exact min_le_right _ _

/-- C7: classifying the single line
`"SCRIPT ERROR: missing method at res://a.gd:42"` yields exactly one record,
with the structured-error prefix stripped from the message, file
`"res://a.gd"` and line `42`. -/
theorem C7_classify_script_error_line :
    collect_startup_errors
        "SCRIPT ERROR: missing method at res://a.gd:42".toList
      = [{ message := "missing method at res://a.gd:42".toList
           file := some "res://a.gd".toList
           line := some 42 }] := by
  decide

/-- C9 (counterexample): the classifier can produce a record whose `line` is
`0`, which is not a positive integer — `(\d+)` accepts `"0"` and
`int("0") = 0` is stored unchecked. -/
theorem C9_counterexample_zero_line :
    (collect_startup_errors
        "SCRIPT ERROR: missing method at res://a.gd:0".toList).map
      ErrorRecord.line = [some 0] := by
  decide

/-- C9 (amended): for every input text, every record produced by a
classification pass has `file` and `line` either both absent or both present,
and a present `file` is a `res://`-prefixed path with `line` the (possibly
zero) parsed line number. -/
theorem C9_file_line_paired (text : Str) :
    ∀ rec ∈ collect_startup_errors text,
      (rec.file.isSome ↔ rec.line.isSome) ∧
      (∀ f, rec.file = some f → ("res://".toList).isPrefixOf f = true) := by
  intro rec hrec
  obtain ⟨line, hline⟩ := mem_collect_startup_errors hrec
  rw [hline]
  exact parse_error_line_paired line

/-- Witness for C9 (amended): a concrete record produced from a concrete text
satisfies the pairing property. -/
theorem C9_file_line_paired_witness :
    ({ message := "x at res://b.gd:3".toList
       file := some "res://b.gd".toList
       line := some 3 } : ErrorRecord)
        ∈ collect_startup_errors "SCRIPT ERROR: x at res://b.gd:3".toList ∧
    ((some "res://b.gd".toList).isSome ↔ (some (3 : Nat)).isSome) :=
  ⟨by decide,
   (C9_file_line_paired "SCRIPT ERROR: x at res://b.gd:3".toList
      { message := "x at res://b.gd:3".toList
        file := some "res://b.gd".toList
        line := some 3 } (by decide)).1⟩

/-- C10: for the registered runtime tools, when the liveness gate
`_check_runtime` returns a non-`None` error message, the tool returns that
message as its entire result (`[err]` for the list-valued tools, the `error`
value for the dict-valued ones) and issues no command request to the runtime
endpoint. -/
theorem C10_gate_blocks_runtime_commands {β : Type}
    (cache : RuntimeCache) (now : ℚ) (avail : Bool) (log : Option Str)
    (err root button : Str) (depth w h : Nat) (incl ann dbl peek : Bool)
    (q x y : ℚ) (resp : β)
    (hgate : (check_runtime cache now avail log).errMsg = some err) :
    game_snapshot_tool (check_runtime cache now avail log).errMsg
        root depth incl ann q resp = (.listErr err, []) ∧
    game_screenshot_tool (check_runtime cache now avail log).errMsg
        w h q ann resp = (.listErr err, []) ∧
    game_click_tool (check_runtime cache now avail log).errMsg
        x y button dbl resp = (.dictErr err, []) ∧
    game_events_tool (check_runtime cache now avail log).errMsg
        peek resp = (.dictErr err, []) ∧
    game_snapshot_diff_tool (check_runtime cache now avail log).errMsg
        depth resp = (.dictErr err, []) := by
  rw [hgate]
  exact ⟨rfl, rfl, rfl, rfl, rfl⟩

/-- Witness for C10: a cold cache and a failing probe make the gate return
the not-running message; all five tools short-circuit on it. -/
theorem C10_gate_blocks_runtime_commands_witness :
    (check_runtime ⟨0⟩ 5 false none).errMsg = some GAME_NOT_RUNNING_MSG ∧
    (game_snapshot_tool (β := Unit) (check_runtime ⟨0⟩ 5 false none).errMsg
        [] 12 false true 1 () = (.listErr GAME_NOT_RUNNING_MSG, []) ∧
     game_screenshot_tool (check_runtime ⟨0⟩ 5 false none).errMsg
        640 360 1 true () = (.listErr GAME_NOT_RUNNING_MSG, []) ∧
     game_click_tool (check_runtime ⟨0⟩ 5 false none).errMsg
        100 200 "left".toList false () = (.dictErr GAME_NOT_RUNNING_MSG, []) ∧
     game_events_tool (check_runtime ⟨0⟩ 5 false none).errMsg
        false () = (.dictErr GAME_NOT_RUNNING_MSG, []) ∧
     game_snapshot_diff_tool (check_runtime ⟨0⟩ 5 false none).errMsg
        12 () = (.dictErr GAME_NOT_RUNNING_MSG, [])) :=
  ⟨by norm_num [check_runtime, CACHE_TTL],
   C10_gate_blocks_runtime_commands ⟨0⟩ 5 false none GAME_NOT_RUNNING_MSG
     [] "left".toList 12 640 360 false true false false 1 100 200 ()
     (by norm_num [check_runtime, CACHE_TTL])⟩

end GodotBridge

namespace GodotBridge

theorem ClientState.request_conn_fault {β α : Type} (st : ClientState)
    (m : Method) (path : Str) (payload : α) (o : Option ℚ)
    (oracle : Nat → AttemptOutcome β)
    (hInv : ∀ c, st.channel = some c → c < st.nextId)
    (h0 : oracle 0 = .connFault) :
    ((st.request m path payload o oracle).2.1.map Prod.snd
        = [⟨m, path, payload, st.effective_timeout o⟩,
           ⟨m, path, payload, st.effective_timeout o⟩]) ∧
    ((st.request m path payload o oracle).2.1.map Prod.fst).Nodup ∧
    (oracle 1 = .connFault →
      (st.request m path payload o oracle).1 = .connFailure) ∧
    (∀ j, oracle 1 = .success j →
      (st.request m path payload o oracle).1 = .ok j) := by
  unfold ClientState.request
  rw [h0]
  cases hch : st.channel with
  | none =>
    cases h1 : oracle 1 <;>
      simp [ClientState.get_client, ClientState.reset_client, hch, h1]
  | some c =>
    have hc := hInv c hch
    cases h1 : oracle 1 <;>
      simp [ClientState.get_client, ClientState.reset_client, hch, h1] <;>
      omega

/-- C3: for every get or post call, a first connection-level fault causes
exactly one retry — the channel is discarded, a fresh (distinct) one is
created, and the identical request (same method, path, payload) is reissued
with the identical effective timeout; a second consecutive connection-level
fault propagates as a connection failure, and a third attempt is never made
(the trace has exactly two requests). -/
theorem C3_single_retry_on_conn_fault {β α : Type} (st : ClientState)
    (path : Str) (payload : α) (o : Option ℚ)
    (oracle oracle' : Nat → AttemptOutcome β)
    (hInv : ∀ c, st.channel = some c → c < st.nextId)
    (h0 : oracle 0 = .connFault) (h0' : oracle' 0 = .connFault) :
    ((st.get path payload o oracle).2.1.map Prod.snd
        = [⟨.get, path, payload, st.effective_timeout o⟩,
           ⟨.get, path, payload, st.effective_timeout o⟩]) ∧
    ((st.get path payload o oracle).2.1.map Prod.fst).Nodup ∧
    (oracle 1 = .connFault → (st.get path payload o oracle).1 = .connFailure) ∧
    (∀ j, oracle 1 = .success j → (st.get path payload o oracle).1 = .ok j) ∧
    ((st.post path payload o oracle').2.1.map Prod.snd
        = [⟨.post, path, payload, st.effective_timeout o⟩,
           ⟨.post, path, payload, st.effective_timeout o⟩]) ∧
    ((st.post path payload o oracle').2.1.map Prod.fst).Nodup ∧
    (oracle' 1 = .connFault →
      (st.post path payload o oracle').1 = .connFailure) ∧
    (∀ j, oracle' 1 = .success j →
      (st.post path payload o oracle').1 = .ok j) := by
  obtain ⟨a1, a2, a3, a4⟩ :=
    ClientState.request_conn_fault st .get path payload o oracle hInv h0
  obtain ⟨b1, b2, b3, b4⟩ :=
    ClientState.request_conn_fault st .post path payload o oracle' hInv h0'
  exact ⟨a1, a2, a3, a4, b1, b2, b3, b4⟩

/-- Witness for C3: a fresh client and two consecutive connection faults —
two identical GET requests are issued (timeout 30) and the call raises the
connection failure. -/
theorem C3_single_retry_on_conn_fault_witness :
    oracleConnConn 0 = .connFault ∧
    (ClientState.init 30).effective_timeout none = 30 ∧
    (((ClientState.init 30).get "/info".toList () none oracleConnConn).2.1.map
        Prod.snd
      = [⟨.get, "/info".toList, (), 30⟩, ⟨.get, "/info".toList, (), 30⟩]) ∧
    ((ClientState.init 30).get "/info".toList () none oracleConnConn).1
      = .connFailure := by
  have heff : (ClientState.init 30).effective_timeout none = 30 := by
    norm_num [ClientState.effective_timeout, ClientState.init, MAX_TIMEOUT]
  have happ := C3_single_retry_on_conn_fault (β := Unit) (α := Unit)
    (ClientState.init 30) "/info".toList () none oracleConnConn oracleConnConn
    (by intro c h; simp [ClientState.init] at h) rfl rfl
  refine ⟨rfl, heff, ?_, happ.2.2.1 rfl⟩
  have h1 := happ.1
  rw [heff] at h1
  exact h1

end GodotBridge

namespace GodotBridge

/-- C4 (counterexample): a timeout on the lone retry after a connection-level
fault.  The call propagates httpx's raw timeout exception — not the re-raised
`TimeoutFailure` naming the effective timeout and path — and the fresh
channel created inside the `except` handler is left in place rather than
discarded: the `except httpx.TimeoutException` clause does not catch
exceptions raised inside the sibling connection-fault handler. -/
theorem C4_counterexample_timeout_after_retry :
    ((ClientState.init 30).get "/info".toList () none oracleConnThenTimeout).1
      = .rawTimeout ∧
    ((ClientState.init 30).get "/info".toList () none
        oracleConnThenTimeout).2.2.channel = some 1 := by
  constructor <;> rfl

/-- C4 (amended): a timeout fault is never retried.  On a first-attempt
timeout the request is not reissued, the channel is discarded, and a
`TimeoutFailure` naming the effective timeout and the request path
propagates; a timeout on the lone retry that follows a connection-level fault
likewise causes no further attempt, but it propagates as the transport's
plain timeout exception and leaves the fresh channel in place. -/
theorem C4_timeout_not_retried {β α : Type} (st : ClientState) (path : Str)
    (payload : α) (o : Option ℚ) (oracleA oracleB : Nat → AttemptOutcome β)
    (hA : oracleA 0 = .timeoutFault)
    (hB0 : oracleB 0 = .connFault) (hB1 : oracleB 1 = .timeoutFault) :
    ((st.get path payload o oracleA).2.1.map Prod.snd
        = [⟨.get, path, payload, st.effective_timeout o⟩]) ∧
    (st.get path payload o oracleA).1
        = .timeoutFailure (st.effective_timeout o) path ∧
    (st.get path payload o oracleA).2.2.channel = none ∧
    ((st.post path payload o oracleA).2.1.map Prod.snd
        = [⟨.post, path, payload, st.effective_timeout o⟩]) ∧
    (st.post path payload o oracleA).1
        = .timeoutFailure (st.effective_timeout o) path ∧
    (st.post path payload o oracleA).2.2.channel = none ∧
    (st.get path payload o oracleB).2.1.length = 2 ∧
    (st.get path payload o oracleB).1 = .rawTimeout ∧
    (st.get path payload o oracleB).2.2.channel ≠ none ∧
    (st.post path payload o oracleB).2.1.length = 2 ∧
    (st.post path payload o oracleB).1 = .rawTimeout ∧
    (st.post path payload o oracleB).2.2.channel ≠ none := by
  unfold ClientState.get ClientState.post ClientState.request
  rw [hA, hB0, hB1]
  cases hch : st.channel <;>
    simp [ClientState.get_client, ClientState.reset_client, hch]

/-- Witness for C4 (amended): a fresh client; a first-attempt timeout gives
the enriched failure naming timeout 30 and the path, while a
connection-fault-then-timeout run gives the raw timeout. -/
theorem C4_timeout_not_retried_witness :
    oracleTimeout 0 = .timeoutFault ∧
    oracleConnThenTimeout 0 = .connFault ∧
    oracleConnThenTimeout 1 = .timeoutFault ∧
    (ClientState.init 30).effective_timeout none = 30 ∧
    ((ClientState.init 30).get "/x".toList () none oracleTimeout).1
      = .timeoutFailure 30 "/x".toList ∧
    ((ClientState.init 30).get "/x".toList () none oracleTimeout).2.2.channel
      = none ∧
    ((ClientState.init 30).get "/x".toList () none oracleConnThenTimeout).1
      = .rawTimeout := by
  have heff : (ClientState.init 30).effective_timeout none = 30 := by
    norm_num [ClientState.effective_timeout, ClientState.init, MAX_TIMEOUT]
  have happ := C4_timeout_not_retried (β := Unit) (α := Unit)
    (ClientState.init 30) "/x".toList () none oracleTimeout
    oracleConnThenTimeout rfl rfl rfl
  refine ⟨rfl, rfl, rfl, heff, ?_, happ.2.2.1, happ.2.2.2.2.2.2.2.1⟩
  have h2 := happ.2.1
  rw [heff] at h2
  exact h2

end GodotBridge

namespace GodotBridge

/-- C5: after a liveness check succeeds with a real probe (confirming the
runtime reachable and recording the confirmation time `t₁`), a second check
within the TTL window performs no probe and returns OK from the cache — so
the two checks issue at most one probe — while a check after the TTL has
expired performs exactly one more probe. -/
theorem C5_ttl_caches_probe (cache : RuntimeCache) (t₁ t₂ t₃ : ℚ)
    (avail₂ avail₃ : Bool) (log₁ log₂ log₃ : Option Str)
    (h₁ : CACHE_TTL ≤ t₁ - cache.last_ok)
    (h₂ : t₂ - t₁ < CACHE_TTL)
    (h₃ : CACHE_TTL ≤ t₃ - t₁) :
    check_runtime cache t₁ true log₁ = ⟨none, ⟨t₁⟩, true⟩ ∧
    check_runtime ⟨t₁⟩ t₂ avail₂ log₂ = ⟨none, ⟨t₁⟩, false⟩ ∧
    (check_runtime ⟨t₁⟩ t₃ avail₃ log₃).probed = true := by
  refine ⟨?_, ?_, ?_⟩
  · simp only [check_runtime, if_neg (not_lt.mpr h₁)]
    simp
  · simp only [check_runtime]
    rw [if_pos]
    exact h₂
  · simp only [check_runtime, if_neg (not_lt.mpr h₃)]
    cases avail₃ <;> simp

/-- Witness for C5: first probing check at time 5 on a cold cache, a cached
second check at time 6, a probing third check at time 7. -/
theorem C5_ttl_caches_probe_witness :
    CACHE_TTL ≤ (5 : ℚ) - 0 ∧ (6 : ℚ) - 5 < CACHE_TTL ∧
    CACHE_TTL ≤ (7 : ℚ) - 5 ∧
    check_runtime ⟨0⟩ 5 true none = ⟨none, ⟨5⟩, true⟩ ∧
    check_runtime ⟨5⟩ 6 true none = ⟨none, ⟨5⟩, false⟩ ∧
    (check_runtime ⟨5⟩ 7 true none).probed = true := by
  have happ := C5_ttl_caches_probe ⟨0⟩ 5 6 7 true true none none none
    (by norm_num [CACHE_TTL]) (by norm_num [CACHE_TTL])
    (by norm_num [CACHE_TTL])
  exact ⟨by norm_num [CACHE_TTL], by norm_num [CACHE_TTL],
         by norm_num [CACHE_TTL], happ.1, happ.2.1, happ.2.2⟩

/-- C6: when the liveness probe fails, the record is reset to never-confirmed
(so the very next check, at any later monotonic reading, probes again
regardless of the TTL), and the failure is qualified by prior state: with a
prior confirmation (`last_ok > 0`) the result is the crash-diagnostics
report, with no prior confirmation it is the plain not-running message. -/
theorem C6_failure_invalidates_and_qualifies (cache : RuntimeCache)
    (now now' : ℚ) (log log' : Option Str) (avail' : Bool)
    (h0 : 0 ≤ cache.last_ok)
    (hT : CACHE_TTL ≤ now - cache.last_ok)
    (hM : now ≤ now') :
    (check_runtime cache now false log).cache.last_ok = 0 ∧
    (check_runtime (check_runtime cache now false log).cache
        now' avail' log').probed = true ∧
    (0 < cache.last_ok →
      (check_runtime cache now false log).errMsg
        = some (get_crash_diagnostics log)) ∧
    (cache.last_ok = 0 →
      (check_runtime cache now false log).errMsg
        = some GAME_NOT_RUNNING_MSG) := by
  have hck : check_runtime cache now false log
      = ⟨some (if cache.last_ok > 0 then get_crash_diagnostics log
               else GAME_NOT_RUNNING_MSG), ⟨0⟩, true⟩ := by
    simp only [check_runtime, if_neg (not_lt.mpr hT)]
    simp
  refine ⟨by rw [hck], ?_, ?_, ?_⟩
  · rw [hck]
    have hcond' : ¬(now' - (0 : ℚ) < CACHE_TTL) := by
      push_neg
      linarith
    simp only [check_runtime, hcond', if_neg hcond']
    cases avail' <;> simp
  · intro hpos
    rw [hck]
    simp [hpos]
  · intro hzero
    rw [hck]
    simp [hzero]

/-- Witness for C6: a probe failure at time 4 after a confirmation at time 1
yields the crash-diagnostics report and resets the record; a probe failure at
time 2 on a never-confirmed record yields the not-running message. -/
theorem C6_failure_invalidates_and_qualifies_witness :
    ((0 : ℚ) ≤ 1 ∧ CACHE_TTL ≤ (4 : ℚ) - 1 ∧ (4 : ℚ) ≤ 4 ∧
      (check_runtime ⟨1⟩ 4 false none).errMsg
        = some (get_crash_diagnostics none) ∧
      (check_runtime ⟨1⟩ 4 false none).cache.last_ok = 0) ∧
    ((0 : ℚ) ≤ 0 ∧ CACHE_TTL ≤ (2 : ℚ) - 0 ∧
      (check_runtime ⟨0⟩ 2 false none).errMsg
        = some GAME_NOT_RUNNING_MSG) := by
  have hA := C6_failure_invalidates_and_qualifies ⟨1⟩ 4 4 none none true
    (by norm_num) (by norm_num [CACHE_TTL]) (by norm_num)
  have hB := C6_failure_invalidates_and_qualifies ⟨0⟩ 2 2 none none true
    (by norm_num) (by norm_num [CACHE_TTL]) (by norm_num)
  exact ⟨⟨by norm_num, by norm_num [CACHE_TTL], by norm_num,
          hA.2.2.1 (by norm_num), hA.1⟩,
         ⟨by norm_num, by norm_num [CACHE_TTL], hB.2.2.2 rfl⟩⟩

end GodotBridge

namespace GodotBridge

/-- C1: in the launch gate with strict mode requested, when the runtime
endpoint becomes reachable within the poll budget and the startup-error
classifier on the combined console and debugger output is non-empty, the
result is a failure (`ok = false`) carrying the full structured
`startup_errors` list and a log tail bounded to at most 60 lines, while still
reporting `running = true` — never a success. -/
theorem C1_strict_startup_errors_force_failure (env : RunEnv) (scene : Str)
    (hAvail : ((List.range 60).find? env.availAt).isSome = true)
    (hErrs : collect_startup_errors (combinedOutput env) ≠ []) :
    (godot_run_game scene true env).ok = false ∧
    (godot_run_game scene true env).running = true ∧
    (godot_run_game scene true env).startup_errors
      = some (collect_startup_errors (combinedOutput env)) ∧
    (godot_run_game scene true env).log_tail
      = some (truncate_log_tail (combinedOutput env)) ∧
    (splitNl (truncate_log_tail (combinedOutput env))).length ≤ 60 ∧
    (godot_run_game scene true env).error_type
      = some "startup_runtime_error".toList := by
  obtain ⟨i, hi⟩ := Option.isSome_iff_exists.mp hAvail
  have hne : (collect_startup_errors (combinedOutput env)).isEmpty = false := by
    cases hc : collect_startup_errors (combinedOutput env) with
    | nil => exact absurd hc hErrs
    | cons a l => rfl
  unfold godot_run_game
  rw [hi]
  simp only [Bool.true_and, hne]
  exact ⟨rfl, rfl, rfl, rfl, truncate_log_tail_lines_le _, rfl⟩

/-- Witness for C1: a runtime reachable at once whose console shows one fatal
script error — the launch gate fails while reporting the game running. -/
theorem C1_strict_startup_errors_force_failure_witness :
    ((List.range 60).find? envFatal.availAt).isSome = true ∧
    collect_startup_errors (combinedOutput envFatal) ≠ [] ∧
    (godot_run_game [] true envFatal).ok = false ∧
    (godot_run_game [] true envFatal).running = true ∧
    (godot_run_game [] true envFatal).startup_errors
      = some (collect_startup_errors (combinedOutput envFatal)) := by
  have h1 : ((List.range 60).find? envFatal.availAt).isSome = true := by decide
  have h2 : collect_startup_errors (combinedOutput envFatal) ≠ [] := by decide
  have happ := C1_strict_startup_errors_force_failure envFatal [] h1 h2
  exact ⟨h1, h2, happ.1, happ.2.1, happ.2.2.1⟩

/-- C8 (counterexample): when the poll budget is exhausted and the
editor-side log fetch raises, the launch gate's result is the
failed-unreachable record (`ok = false`, `running = false`) but no field of
it contains the literal text `"no error details found"` — neither in strict
nor in non-strict mode.  That literal lives in the liveness gate's crash
diagnostics, which `godot_run_game` never calls. -/
theorem C8_counterexample_no_literal_message :
    (godot_run_game [] true envUnreachable).ok = false ∧
    (godot_run_game [] true envUnreachable).running = false ∧
    resultMentions NO_DETAILS (godot_run_game [] true envUnreachable) = false ∧
    (godot_run_game [] false envUnreachable).ok = false ∧
    (godot_run_game [] false envUnreachable).running = false ∧
    resultMentions NO_DETAILS (godot_run_game [] false envUnreachable)
      = false := by
  refine ⟨?_, ?_, ?_, ?_, ?_, ?_⟩ <;> decide

/-- C8 (amended): if the poll budget is exhausted without the runtime ever
becoming reachable, the terminal outcome is the failed-unreachable result
(`ok = false`, `running = false`); in strict mode the diagnostics are
synthesized from the editor-side debugger log when retrievable, and when that
log is unavailable the result carries an empty error list and empty log tail
with a generic failed-to-start description — the literal
`"no error details found"` message belongs to the crash-diagnostics path of
the liveness gate, not to the launch gate. -/
theorem C8_unreachable_terminal (env : RunEnv) (scene : Str) (strict : Bool)
    (hNever : (List.range 60).find? env.availAt = none) :
    (godot_run_game scene strict env).ok = false ∧
    (godot_run_game scene strict env).running = false ∧
    (godot_run_game scene true env).startup_errors
      = some (synthesized_startup_errors (env.debuggerOut.getD [])) ∧
    (env.debuggerOut = none →
      (godot_run_game scene true env).startup_errors = some [] ∧
      (godot_run_game scene true env).log_tail = some []) ∧
    (godot_run_game scene false env).description
      = "❌ Game failed to start — call godot_get_debugger_output() to see errors, fix, and relaunch".toList ∧
    get_crash_diagnostics none
      = "Game crashed or was stopped — no error details found in the log.".toList
        ++ repairSteps := by
  refine ⟨?_, ?_, ?_, ?_, ?_, rfl⟩
  · cases strict <;> (unfold godot_run_game; rw [hNever]) <;> rfl
  · cases strict <;> (unfold godot_run_game; rw [hNever]) <;> rfl
  · unfold godot_run_game
    rw [hNever]
    rfl
  · intro hnone
    unfold godot_run_game
    rw [hNever, hnone]
    exact ⟨rfl, rfl⟩
  · unfold godot_run_game
    rw [hNever]
    rfl

/-- Witness for C8 (amended): the never-reachable, editor-unreachable
environment gives the failed-unreachable result with empty synthesized
diagnostics. -/
theorem C8_unreachable_terminal_witness :
    (List.range 60).find? envUnreachable.availAt = none ∧
    (godot_run_game [] true envUnreachable).ok = false ∧
    (godot_run_game [] true envUnreachable).running = false ∧
    (godot_run_game [] true envUnreachable).startup_errors = some [] := by
  have hnever : (List.range 60).find? envUnreachable.availAt = none := by
    decide
  have happ := C8_unreachable_terminal envUnreachable [] true hnever
  exact ⟨hnever, happ.1, happ.2.1, (happ.2.2.2.1 rfl).1⟩

end GodotBridge
